import Mathlib

/-!
Verification of the Tape Transport & Capture Engine (pinch-take).

This file gives a shallow embedding of the relevant parts of the source:

* `src/tape-deck.js` — the `TapeDeck` class (transport orchestrator):
  `startPlayback`, `stop`, `arm`, `waitForEnd`, the private sample-routing
  path `#handleSamples` and the buffer write `#setBufferData`.
* `src/metronome-worker.js` — the two historical variants of
  `MetronomeProcessor._start` (click generator catch-up).
* `src/record-worker.js` — `RecordProcessor.process` (capture component).
* `src/record-handler.js` — `RecordHandler.#handleMessage` and
  `setLatencyCompensation` (capture bridge).

Modelling conventions:

* JavaScript numbers are modelled as exact rationals `ℚ` (frame counts,
  which are integral in the source, as `ℤ`).  `Math.round` is
  `jround q = ⌊q + 1/2⌋` and `Math.floor` is `⌊·⌋`, matching JS on all
  inputs relevant here.
* Track buffers are never read back by any property below, so the deck
  state records the *write operation* passed to the typed-array `set`
  call (target track, target start frame, source samples) instead of the
  buffer contents; `setBufferData` reproduces the bounds behaviour of
  `TypedArray.prototype.set` (a `RangeError` when the write would
  overflow the fixed-capacity buffer) via `Except`.
* Event broadcast to the registered transport callbacks is recorded in
  an append-only `log` field; the pending `#resolveStops` list is
  modelled by its length `pendingStops` together with a cumulative
  counter `resolvedStops` of observer resolutions.
-/

/-- JavaScript `Math.round`: round half up, `⌊q + 1/2⌋`. -/
def jround (q : ℚ) : Int := ⌊q + 1 / 2⌋

/-- `TransportEvent` from `src/tape-deck.js` (fields `transportAction`,
`audioCtxTimeS`, `tapeTimeS`). -/
structure TransportEvent where
  transportAction : String
  audioCtxTimeS : ℚ
  tapeTimeS : ℚ
deriving Repr, DecidableEq

/-- The `SampleData` batch delivered to `TapeDeck.#handleSamples`
(`startFrame` and the `samples` float array; the statistics fields of the
batch are never read by the tape deck and are omitted). -/
structure SampleData where
  startFrame : Int
  samples : List ℚ
deriving Repr, DecidableEq

/-- A completed write into a track buffer: the arguments of the
`trackChannelData.set(samplesToCopy, trackStartFrame)` call inside
`TapeDeck.#setBufferData`. -/
structure WriteOp where
  track : Nat
  trackStartFrame : Int
  samples : List ℚ
deriving Repr, DecidableEq

/-- State of the `TapeDeck` class (`src/tape-deck.js`): the private
fields `#tapeZeroFrame`, `#punchInTapeFrame`, `#punchOutTapeFrame`,
`#stopTapeFrame`, `#armedTrack`, the length of `#tracks`, the set of
track indices with a live one-shot source node, the length of
`#resolveStops` (`pendingStops`), plus two instrumentation fields:
`resolvedStops` counts resolver invocations and `log` records the
`TransportEvent`s broadcast to the `#onTransportEventCallbacks`. -/
structure DeckState where
  tapeZeroFrame : Int
  punchInTapeFrame : Int
  punchOutTapeFrame : Int
  stopTapeFrame : Int
  armedTrack : Int
  numTracks : Nat
  sources : List Nat
  pendingStops : Nat
  resolvedStops : Nat
  log : List TransportEvent
deriving Repr, DecidableEq

/-- Initial field values of a fresh `TapeDeck`. -/
def DeckState.init : DeckState :=
  { tapeZeroFrame := -1, punchInTapeFrame := -1, punchOutTapeFrame := -1,
    stopTapeFrame := -1, armedTrack := -1, numTracks := 0, sources := [],
    pendingStops := 0, resolvedStops := 0, log := [] }

/-- `TapeDeck.MAX_TRACK_LENGTH_S = 60 * 5`. -/
def MAX_TRACK_LENGTH_S : Nat := 60 * 5

/-- Capacity of a track buffer created by `TapeDeck.#addTrack`:
`sampleRate * TapeDeck.MAX_TRACK_LENGTH_S` frames. -/
def trackCapacity (sampleRate : Nat) : Nat := sampleRate * MAX_TRACK_LENGTH_S

/-- The `TransportEvent` built by `TapeDeck.stop` before broadcasting:
`tapeTimeS = (Math.round(nowTimeS * sampleRate) - tapeZeroFrame) / sampleRate`. -/
def stopEvent (sampleRate : Nat) (nowTimeS : ℚ) (s : DeckState) : TransportEvent :=
  { transportAction := "stop", audioCtxTimeS := nowTimeS,
    tapeTimeS := ((jround (nowTimeS * sampleRate) - s.tapeZeroFrame : Int) : ℚ) / sampleRate }

/-- `TapeDeck.stop`: disconnects every source node, broadcasts a
`"stop"` event, invalidates the tape-zero mapping and punch thresholds
(sets them to `-1`), and resolves all pending `waitForEnd` observers
(`#resolveWaitingStops` empties the list and calls each resolver once).
`#stopTapeFrame` and `#armedTrack` are left unchanged. -/
def DeckState.stop (sampleRate : Nat) (nowTimeS : ℚ) (s : DeckState) : DeckState :=
  { s with
    sources := [],
    tapeZeroFrame := -1,
    punchInTapeFrame := -1,
    punchOutTapeFrame := -1,
    log := s.log ++ [stopEvent sampleRate nowTimeS s],
    pendingStops := 0,
    resolvedStops := s.resolvedStops + s.pendingStops }

/-- `TapeDeck.waitForEnd`: pushes one resolver onto `#resolveStops`. -/
def DeckState.waitForEnd (s : DeckState) : DeckState :=
  { s with pendingStops := s.pendingStops + 1 }

/-- The song context read by `startPlayback`: `tempo` (BPM) and
`beatsPerMeasure`. -/
structure SongContext where
  tempo : ℚ
  beatsPerMeasure : ℚ
deriving Repr, DecidableEq

/-- `TapeDeck.startPlayback(startTimeS, stopTimeS = -1, {punchInS, punchOutS},
{loopStartS})` from `src/tape-deck.js`:

* `transportEventTimeS = currentTime + 0.1` (metronome delay);
* `playbackStartTimeS = transportEventTimeS + countInS` where
  `countInS = beatsPerMeasure * 60 / tempo` (one count-in bar);
* punch seconds are converted with `Math.round(· * sampleRate)`, `-1`
  meaning absent;
* `tapeZeroFrame = Math.round(playbackStartTimeS * sampleRate) -
  Math.round(startTimeS * sampleRate)`;
* `stopTapeFrame` is set only when `stopTimeS >= 0` and no loop start is
  given;
* when not recording (`punchInTapeFrame == -1` or no armed track) the
  armed index is cleared to `-1`;
* a fresh one-shot source node is started for every track whose index is
  not the (possibly cleared) armed index;
* one `"play"` event is broadcast. -/
def DeckState.startPlayback (sampleRate : Nat) (song : SongContext)
    (currentTime : ℚ) (s : DeckState) (startTimeS : ℚ) (stopTimeS : ℚ)
    (punchInS punchOutS : Option ℚ) (loopStartS : Option ℚ) : DeckState :=
  let metronomeDelayS : ℚ := 1 / 10
  let barDurationS : ℚ := song.beatsPerMeasure * 60 / song.tempo
  let countInS := barDurationS
  let transportEventTimeS := currentTime + metronomeDelayS
  let playbackStartTimeS := transportEventTimeS + countInS
  let event : TransportEvent :=
    { transportAction := "play", audioCtxTimeS := transportEventTimeS,
      tapeTimeS := startTimeS }
  let punchInTapeFrame : Int :=
    match punchInS with
    | some p => jround (p * sampleRate)
    | none => -1
  let punchOutTapeFrame : Int :=
    match punchOutS with
    | some p => jround (p * sampleRate)
    | none => -1
  let tapeTimeFrames := jround (startTimeS * sampleRate)
  let tapeZeroFrame := jround (playbackStartTimeS * sampleRate) - tapeTimeFrames
  let stopTapeFrame : Int :=
    if 0 ≤ stopTimeS ∧ loopStartS = none then jround (stopTimeS * sampleRate) else -1
  let isRecording := punchInTapeFrame ≠ -1 ∧ s.armedTrack ≠ -1
  let armedTrack := if isRecording then s.armedTrack else -1
  let sources := (List.range s.numTracks).filter fun i => Int.ofNat i ≠ armedTrack
  { s with
    tapeZeroFrame := tapeZeroFrame,
    punchInTapeFrame := punchInTapeFrame,
    punchOutTapeFrame := punchOutTapeFrame,
    stopTapeFrame := stopTapeFrame,
    armedTrack := armedTrack,
    sources := sources,
    log := s.log ++ [event] }

/-- The `while (this.#tracks.length <= trackNumber) this.#addTrack()`
loop of `TapeDeck.arm`, acting on the track count. -/
def armLoop (len : Nat) (trackNumber : Int) : Nat :=
  if h : (len : Int) ≤ trackNumber then armLoop (len + 1) trackNumber else len
termination_by (trackNumber + 1 - len).toNat
decreasing_by omega

/-- `TapeDeck.arm(trackNumber)`: `null`/`undefined` selects
`#tracks.length`; missing tracks are created by the grow loop; the armed
index is set to the requested number, which is also returned. -/
def DeckState.arm (s : DeckState) (trackNumber : Option Int) : DeckState × Int :=
  let n : Int :=
    match trackNumber with
    | none => (s.numTracks : Int)
    | some k => k
  ({ s with numTracks := armLoop s.numTracks n, armedTrack := n }, n)

/-- `TypedArray.prototype.subarray(begin)` for `begin ≥ 0` clamps
`begin` into `[0, length]`; `List.drop` of `Int.toNat` reproduces this
(negative `begin` does not occur at the call sites modelled here without
first being negated). -/
def typedSubarray (xs : List ℚ) (begin_ : Int) : List ℚ := xs.drop begin_.toNat

/-- `TapeDeck.#setBufferData(inputAudioSamples, inputStartFrame,
trackNumber, trackStartFrame)`: throws on an invalid track number;
otherwise performs `trackChannelData.set(samplesToCopy, trackStartFrame)`
on the fixed-capacity channel data, which raises a `RangeError` when
the offset is negative or the write would run past the buffer end
(`TypedArray.prototype.set` does not clip). -/
def setBufferData (sampleRate : Nat) (numTracks : Nat)
    (inputAudioSamples : List ℚ) (inputStartFrame : Int)
    (trackNumber : Int) (trackStartFrame : Int) : Except String WriteOp :=
  if trackNumber < 0 ∨ (numTracks : Int) ≤ trackNumber then
    .error "Invalid track number"
  else
    let samplesToCopy := typedSubarray inputAudioSamples inputStartFrame
    if 0 ≤ trackStartFrame ∧
        trackStartFrame + samplesToCopy.length ≤ (trackCapacity sampleRate : Int) then
      .ok { track := trackNumber.toNat, trackStartFrame := trackStartFrame,
            samples := samplesToCopy }
    else
      .error "RangeError"

deriving instance DecidableEq for Except

/-- Result of one `TapeDeck.#handleSamples` call: the deck state after
the call and the outcome of the buffer write (`.ok none` when the batch
was ignored or dropped, `.ok (some w)` when `w` was written, `.error e`
when the call threw). -/
structure HandleResult where
  state : DeckState
  write : Except String (Option WriteOp)
deriving Repr, DecidableEq

/-- `TapeDeck.#handleSamples(data)` from `src/tape-deck.js`:

* returns immediately unless a track is armed, the tape is rolling
  (`#tapeZeroFrame > 0`) and punch-in is set;
* `startTapeFrame = data.startFrame - tapeZeroFrame`,
  `endTapeFrame = startTapeFrame + data.samples.length`;
* if a stop frame is set and `endTapeFrame >= stopTapeFrame`, calls
  `this.stop()` (which broadcasts a stop event and invalidates the
  mapping) and then *continues*;
* drops the batch when `endTapeFrame < punchInTapeFrame`, or when
  punch-out is set and `startTapeFrame > punchOutTapeFrame` (fields read
  after the possible internal stop);
* when `startTapeFrame < 0` the samples are sliced with
  `subarray(-startTapeFrame)` and the start clamped to `0`;
* finally writes via `#setBufferData(dataSamples, 0, armedTrack,
  startTapeFrame)`. -/
def DeckState.handleSamples (sampleRate : Nat) (nowTimeS : ℚ)
    (s : DeckState) (data : SampleData) : HandleResult :=
  if s.armedTrack < 0 ∨ s.tapeZeroFrame ≤ 0 ∨ s.punchInTapeFrame < 0 then
    { state := s, write := .ok none }
  else
    let startTapeFrame := data.startFrame - s.tapeZeroFrame
    let endTapeFrame := startTapeFrame + data.samples.length
    let s1 :=
      if 0 ≤ s.stopTapeFrame ∧ s.stopTapeFrame ≤ endTapeFrame then
        s.stop sampleRate nowTimeS
      else s
    if endTapeFrame < s1.punchInTapeFrame then
      { state := s1, write := .ok none }
    else if 0 ≤ s1.punchOutTapeFrame ∧ s1.punchOutTapeFrame < startTapeFrame then
      { state := s1, write := .ok none }
    else
      let dataSamples :=
        if startTapeFrame < 0 then typedSubarray data.samples (-startTapeFrame)
        else data.samples
      let startTapeFrame' := if startTapeFrame < 0 then 0 else startTapeFrame
      match setBufferData sampleRate s1.numTracks dataSamples 0 s1.armedTrack startTapeFrame' with
      | .ok w => { state := s1, write := .ok (some w) }
      | .error e => { state := s1, write := .error e }

/-- State set up by `MetronomeProcessor._start` (`src/metronome-worker.js`):
`_isPlaying`, `_beatCount` (the beat number for the next tick) and
`_nextTickFrame` (the frame where the next tick will start; fractional
because `framesPerBeat` is `secondsPerBeat * sampleRate`). -/
structure ClickState where
  isPlaying : Bool
  beatCount : Int
  nextTickFrame : ℚ
deriving Repr, DecidableEq

/-- First variant of `MetronomeProcessor._start` (lines 56-79 of
`src/metronome-worker.js`).  With an anchor in the past:
`beatsSinceStart = Math.floor(framesSinceStart / framesPerBeat)`,
`_beatCount = beatsSinceStart % _beatsPerMeasure`,
`_nextTickFrame = startFrame + (beatsSinceStart + 1) * framesPerBeat`.
`_beatsPerMeasure = _beatsPerMeasure || 4` replaces a zero value by 4. -/
def metronomeStartV1 (sampleRate : Nat) (bpm : ℚ) (beatsPerMeasure : Int)
    (currentFrame : Int) (audioContextTimeS : Option ℚ) : ClickState :=
  let m : Int := if beatsPerMeasure = 0 then 4 else beatsPerMeasure
  match audioContextTimeS with
  | some t =>
    let startFrame : Int := ⌊t * (sampleRate : ℚ)⌋
    let secondsPerBeat : ℚ := 60 / bpm
    let framesPerBeat : ℚ := secondsPerBeat * sampleRate
    if startFrame < currentFrame then
      let framesSinceStart : Int := currentFrame - startFrame
      let beatsSinceStart : Int := ⌊(framesSinceStart : ℚ) / framesPerBeat⌋
      { isPlaying := true, beatCount := beatsSinceStart % m,
        nextTickFrame := (startFrame : ℚ) + ((beatsSinceStart : ℚ) + 1) * framesPerBeat }
    else
      { isPlaying := true, beatCount := 0, nextTickFrame := (startFrame : ℚ) }
  | none =>
    { isPlaying := true, beatCount := 0, nextTickFrame := (currentFrame : ℚ) }

/-- Second variant of `MetronomeProcessor._start` (lines 226-255 of
`src/metronome-worker.js`).  With an anchor in the past:
`numberOfBeatsMissed = Math.floor(framesSinceStart / framesPerBeat) + 1`,
`_beatCount = numberOfBeatsMissed % _beatsPerMeasure`,
`_nextTickFrame = startFrame + numberOfBeatsMissed * framesPerBeat`. -/
def metronomeStartV2 (sampleRate : Nat) (bpm : ℚ) (beatsPerMeasure : Int)
    (currentFrame : Int) (audioContextTimeS : Option ℚ) : ClickState :=
  let m : Int := if beatsPerMeasure = 0 then 4 else beatsPerMeasure
  match audioContextTimeS with
  | some t =>
    let startFrame : Int := ⌊t * (sampleRate : ℚ)⌋
    let secondsPerBeat : ℚ := 60 / bpm
    let framesPerBeat : ℚ := secondsPerBeat * sampleRate
    if startFrame < currentFrame then
      let framesSinceStart : Int := currentFrame - startFrame
      let numberOfBeatsMissed : Int := ⌊(framesSinceStart : ℚ) / framesPerBeat⌋ + 1
      { isPlaying := true, beatCount := numberOfBeatsMissed % m,
        nextTickFrame := (startFrame : ℚ) + (numberOfBeatsMissed : ℚ) * framesPerBeat }
    else
      { isPlaying := true, beatCount := 0, nextTickFrame := (startFrame : ℚ) }
  | none =>
    { isPlaying := true, beatCount := 0, nextTickFrame := (currentFrame : ℚ) }

/-- The `inputs[0]?.[0]` read at the top of `RecordProcessor.process`
(`src/record-worker.js`): the first channel of the first input, if any. -/
def recordInputChannel (inputs : List (List (List ℚ))) : Option (List ℚ) :=
  inputs.head?.bind List.head?

/-- One `this.tmpBuffer[k] += channel[k]` inner loop of
`RecordProcessor.process`: adds `channel` pointwise into `tmp` (writes
past the end of the typed array are ignored, extra `tmp` entries are
kept). -/
def addChannelInto (tmp channel : List ℚ) : List ℚ :=
  List.zipWith (· + ·) tmp channel ++ tmp.drop channel.length

/-- The "Sum everything down to Mono" section of
`RecordProcessor.process`: `tmpBuffer.set(inputChannel)` followed by the
double loop adding every `inputs[i][j]` with `(i, j) ≠ (0, 0)` into
`tmpBuffer`. Returns the resulting `tmpBuffer` contents (restricted to
the first input channel's frames); `[]` when there is no input channel
(in which case `process` returns early). -/
def recordMonoSum (inputs : List (List (List ℚ))) : List ℚ :=
  match recordInputChannel inputs with
  | none => []
  | some inputChannel =>
    inputs.enum.foldl
      (fun tmp p =>
        p.2.enum.foldl
          (fun tmp2 q =>
            if p.1 = 0 ∧ q.1 = 0 then tmp2 else addChannelInto tmp2 q.2)
          tmp)
      inputChannel

/-- The samples `RecordProcessor.process` actually appends to the batch
buffer: `this.buffer.set(inputChannel, this.framesCollected)` copies the
raw first channel of the first input (`[]` when there is no input
channel). -/
def recordAccumulated (inputs : List (List (List ℚ))) : List ℚ :=
  match recordInputChannel inputs with
  | none => []
  | some inputChannel => inputChannel

/-- A sample batch as received by `RecordHandler.#handleMessage`
(`src/record-handler.js`): the fields it reads and adjusts. -/
structure RHBatch where
  samples : List ℚ
  startFrame : Int
  startTimeS : ℚ
deriving Repr, DecidableEq

/-- `RecordHandler.setLatencyCompensation(seconds)`:
`#latencyCompensationFrames = Math.round(seconds * sampleRate)`. -/
def setLatencyCompensation (sampleRate : Nat) (seconds : ℚ) : Int :=
  jround (seconds * sampleRate)

/-- The adjustment performed by `RecordHandler.#handleMessage` on a
`'samples'` message: `data.startFrame -= compensationFrames;
data.startTimeS -= compensationFrames / sampleRate`. -/
def adjustBatch (sampleRate : Nat) (compensationFrames : Int) (b : RHBatch) : RHBatch :=
  { b with
    startFrame := b.startFrame - compensationFrames,
    startTimeS := b.startTimeS - (compensationFrames : ℚ) / sampleRate }

/-- An event seen by the `RecordHandler`: either a `'samples'` message
arriving on the worklet port, or a `setLatencyCompensation` call. -/
inductive RHEvent where
  | samples (b : RHBatch)
  | setComp (seconds : ℚ)
deriving Repr, DecidableEq

/-- A run of the `RecordHandler` with `numSubscribers` registered
callbacks: each `'samples'` message is adjusted by the current
compensation and delivered to every subscriber `0, …, numSubscribers-1`
in registration order (all with the same adjusted batch object);
`setLatencyCompensation` replaces the compensation for subsequent
messages.  Returns the list of `(subscriber, batch)` invocations in
order. -/
def recordHandlerRun (sampleRate : Nat) (numSubscribers : Nat) :
    Int → List RHEvent → List (Nat × RHBatch)
  | _, [] => []
  | comp, .samples b :: rest =>
    ((List.range numSubscribers).map fun k => (k, adjustBatch sampleRate comp b)) ++
      recordHandlerRun sampleRate numSubscribers comp rest
  | _, .setComp x :: rest =>
    recordHandlerRun sampleRate numSubscribers (setLatencyCompensation sampleRate x) rest

/-- The compensation value in effect after processing a list of
`RecordHandler` events. -/
def compAfter (sampleRate : Nat) : Int → List RHEvent → Int
  | comp, [] => comp
  | comp, .samples _ :: rest => compAfter sampleRate comp rest
  | _, .setComp x :: rest => compAfter sampleRate (setLatencyCompensation sampleRate x) rest


/-- C1: at a concrete recording pass (tape rolling with
`tapeZeroFrame = 1000`, track 0 armed, punch window `[52, 55)` in tape
frames, so `punchInS ≤ punchOutS`), the batch starting at frame 1050
(tape frame 50) with 8 samples straddles both punch boundaries; the
sample-routing path `#handleSamples` writes the *whole* batch at tape
frame 50, so samples at tape frames 50, 51 (before punch-in) and
55, 56, 57 (at or after punch-out) are written to the armed track — the
batch is not clipped to the punch window. -/
theorem handleSamples_writes_outside_punch_window :
    (DeckState.handleSamples 48000 0
      { DeckState.init with
          tapeZeroFrame := 1000,
          punchInTapeFrame := 52,
          punchOutTapeFrame := 55,
          armedTrack := 0,
          numTracks := 1 }
      { startFrame := 1050, samples := List.replicate 8 0 }).write =
      .ok (some { track := 0, trackStartFrame := 50,
                  samples := List.replicate 8 0 }) ∧
    (50 : Int) < 52 ∧ (55 : Int) < 50 + 8 := by
  refine ⟨?_, by norm_num, by norm_num⟩
  norm_num [DeckState.handleSamples, DeckState.init, setBufferData,
    typedSubarray, trackCapacity, MAX_TRACK_LENGTH_S]

/-- C3: with track capacity `48000 * 300 = 14400000` frames and a punch
window ending exactly at capacity, a batch straddling the capacity
boundary (tape frames 14399996 … 14400003) is passed unclipped to
`#setBufferData`, whose `TypedArray.set` call raises a `RangeError`
instead of clipping the write to capacity: the write path faults. -/
theorem handleSamples_overflow_faults :
    (DeckState.handleSamples 48000 0
      { DeckState.init with
          tapeZeroFrame := 1000,
          punchInTapeFrame := 0,
          punchOutTapeFrame := 14400000,
          armedTrack := 0,
          numTracks := 1 }
      { startFrame := 14400996, samples := List.replicate 8 0 }).write =
      .error "RangeError" := by
  norm_num [DeckState.handleSamples, DeckState.init, setBufferData,
    typedSubarray, trackCapacity, MAX_TRACK_LENGTH_S]

/-- C4: on a block whose first input has two channels holding `1` and
`2`, `RecordProcessor.process` computes the mono sum `[3]` into
`tmpBuffer` but accumulates the raw first channel `[1]` into the batch
buffer (`this.buffer.set(inputChannel, …)`), so the accumulated samples
are not the per-frame sum over all input channels. -/
theorem recordProcess_ignores_mono_sum :
    recordAccumulated [[[1], [2]]] = [(1 : ℚ)] ∧
    recordMonoSum [[[1], [2]]] = [(3 : ℚ)] ∧
    recordAccumulated [[[1], [2]]] ≠ recordMonoSum [[[1], [2]]] := by
  norm_num [recordAccumulated, recordMonoSum, recordInputChannel,
    addChannelInto, List.enum, List.enumFrom]

/-- C2 counterexample: at sample rate 48000, 120 bpm, 4 beats per
measure, anchor `A = 0` and `currentFrame = 30000` (so
`framesPerBeat = 24000` and `k = ⌊30000 / 24000⌋ = 1`), the *first*
variant of `MetronomeProcessor._start` schedules the first tick at
`A + (k+1)·framesPerBeat = 48000` but sets beat index
`k % 4 = 1`, not `(k+1) % 4 = 2` as the claim states for every start. -/
theorem metronomeStartV1_beat_index_counterexample :
    (metronomeStartV1 48000 120 4 30000 (some 0)).beatCount = 1 ∧
    (metronomeStartV1 48000 120 4 30000 (some 0)).nextTickFrame = 48000 ∧
    (1 : Int) ≠ (1 + 1) % 4 := by
  norm_num [metronomeStartV1]

/-- C5 counterexample: from a rolling deck with one pending
`waitForEnd` observer, calling `stop()` twice broadcasts *two*
`TransportEvent`s (each call emits one unconditionally), not exactly
one as the claim states. -/
theorem stop_twice_emits_two_events :
    ((DeckState.stop 48000 2 (DeckState.stop 48000 1
      { DeckState.init with
          tapeZeroFrame := 1000,
          pendingStops := 1 })).log).length = 2 ∧
    (2 : Nat) ≠ 1 := by
  norm_num [DeckState.stop, DeckState.init]

/-- C6 counterexample: two `startPlayback(0)` calls at `currentTime = 0`
that differ only in tempo (120 bpm vs 60 bpm, 4 beats per measure)
produce different tape-zero frames (100800 vs 196800): the anchor frame
leads "now" by `0.1 s + one count-in bar`, which depends on the tempo,
so the lead time is not a fixed constant independent of tempo or
meter. -/
theorem tapeZero_lead_depends_on_tempo :
    (DeckState.startPlayback 48000 ⟨120, 4⟩ 0 DeckState.init 0 (-1)
        none none none).tapeZeroFrame = 100800 ∧
    (DeckState.startPlayback 48000 ⟨60, 4⟩ 0 DeckState.init 0 (-1)
        none none none).tapeZeroFrame = 196800 ∧
    (100800 : Int) ≠ 196800 := by
  norm_num [DeckState.startPlayback, DeckState.init, jround]

/-- C7 counterexample: a playback pass started with no armed track
(`startPlayback(0, 0.01)`, stop tape frame 480, tape zero 100800) whose
sample batch at frame 101760 runs past the stop frame (tape frames
960 … 967, past 480) produces *no* Stop event at all: the only
broadcast event is the initial Play event, because the end-of-range
stop lives in the sample-routing path, which ignores batches when no
track is armed.  The claim states one Stop TransportEvent is emitted
when playback reaches the end of its range. -/
theorem playback_end_emits_no_stop_without_recording :
    (DeckState.startPlayback 48000 ⟨120, 4⟩ 0 DeckState.init 0 (1 / 100)
        none none none).stopTapeFrame = 480 ∧
    (DeckState.startPlayback 48000 ⟨120, 4⟩ 0 DeckState.init 0 (1 / 100)
        none none none).tapeZeroFrame = 100800 ∧
    ((DeckState.handleSamples 48000 3
        (DeckState.startPlayback 48000 ⟨120, 4⟩ 0 DeckState.init 0 (1 / 100)
          none none none)
        { startFrame := 101760, samples := List.replicate 8 0 }).state.log).map
      TransportEvent.transportAction = ["play"] := by
  norm_num [DeckState.startPlayback, DeckState.init, DeckState.handleSamples,
    jround]

/-- The grow loop of `arm` always leaves the track count strictly above
the requested index. -/
theorem armLoop_gt (len : Nat) (trackNumber : Int) :
    trackNumber < (armLoop len trackNumber : Int) := by
  rw [armLoop]
  split
  · exact armLoop_gt (len + 1) trackNumber
  · omega
termination_by (trackNumber + 1 - len).toNat
decreasing_by omega

/-- C9: for every non-negative `trackIndex`, after `arm(trackIndex)` the
track list length is strictly greater than `trackIndex` (missing tracks
were created) and the armed index equals `trackIndex`; the armed index
is a single scalar field, and arming a second index overwrites
(demotes) the first, so at most one track is armed at any time. -/
theorem arm_grows_tracks_and_sets_armed (s : DeckState) (n : Int)
    (_hn : 0 ≤ n) :
    n < ((s.arm (some n)).1.numTracks : Int) ∧
    (s.arm (some n)).1.armedTrack = n ∧
    ∀ n2 : Int, (((s.arm (some n)).1.arm (some n2)).1).armedTrack = n2 := by
  refine ⟨armLoop_gt s.numTracks n, rfl, fun n2 => rfl⟩

/-- Witness for C9 at `trackIndex = 1` on a fresh deck. -/
theorem arm_grows_tracks_and_sets_armed_witness :
    (0 : Int) ≤ 1 ∧
    ((1 : Int) < ((DeckState.init.arm (some 1)).1.numTracks : Int) ∧
      (DeckState.init.arm (some 1)).1.armedTrack = 1 ∧
      ∀ n2 : Int,
        (((DeckState.init.arm (some 1)).1.arm (some n2)).1).armedTrack = n2) :=
  ⟨by norm_num, arm_grows_tracks_and_sets_armed DeckState.init 1 (by norm_num)⟩

/-- C10: every `startPlayback` call that does not begin recording —
punch-in absent, or no track armed — clears the armed index to `-1` as
a side effect, and starts a fresh one-shot source for *every* existing
track (the previously armed track is no longer skipped and plays back
like any other track). -/
theorem startPlayback_nonrecording_clears_armed (sampleRate : Nat)
    (song : SongContext) (now startTimeS stopTimeS : ℚ)
    (punchInS punchOutS loopStartS : Option ℚ) (s : DeckState)
    (h : punchInS = none ∨ s.armedTrack = -1) :
    (s.startPlayback sampleRate song now startTimeS stopTimeS punchInS
        punchOutS loopStartS).armedTrack = -1 ∧
    (s.startPlayback sampleRate song now startTimeS stopTimeS punchInS
        punchOutS loopStartS).sources = List.range s.numTracks := by
  have hrec :
      (if (match punchInS with
            | some p => jround (p * sampleRate)
            | none => (-1 : Int)) ≠ -1 ∧ s.armedTrack ≠ -1
        then s.armedTrack else -1) = -1 := by
    rcases h with h | h
    · simp [h]
    · simp [h]
  constructor
  · simp only [DeckState.startPlayback]
    exact hrec
  · simp only [DeckState.startPlayback]
    rw [hrec, List.filter_eq_self]
    intro a _
    simp only [ne_eq, decide_eq_true_eq, Int.ofNat_eq_coe]
    omega

/-- Witness for C10: a deck with two tracks and track 1 armed, played
back without a punch-in, ends up with no armed track and sources on
both tracks. -/
theorem startPlayback_nonrecording_clears_armed_witness :
    ((DeckState.startPlayback 48000 ⟨120, 4⟩ 0
        { DeckState.init with
            armedTrack := 1,
            numTracks := 2 } 0 (-1) none none none).armedTrack = -1 ∧
      (DeckState.startPlayback 48000 ⟨120, 4⟩ 0
        { DeckState.init with
            armedTrack := 1,
            numTracks := 2 } 0 (-1) none none none).sources =
        List.range 2) :=
  startPlayback_nonrecording_clears_armed 48000 ⟨120, 4⟩ 0 0 (-1)
    none none none
    { DeckState.init with armedTrack := 1, numTracks := 2 }
    (Or.inl rfl)

/-- C5 amended: calling `stop()` twice in a row emits exactly two
`TransportEvent`s (one per call — the second call is *not* silent), but
resolves each `waitForEnd` observer exactly once (all observers pending
before the first call are resolved by it; the second call resolves
none), and the second call changes nothing besides appending its event:
the deck is left in the same not-rolling state as after a single
`stop()`. -/
theorem stop_twice_two_events_observers_once (sampleRate : Nat)
    (t1 t2 : ℚ) (s : DeckState) :
    ((s.stop sampleRate t1).stop sampleRate t2).log.length =
      s.log.length + 2 ∧
    (s.stop sampleRate t1).resolvedStops =
      s.resolvedStops + s.pendingStops ∧
    ((s.stop sampleRate t1).stop sampleRate t2).resolvedStops =
      (s.stop sampleRate t1).resolvedStops ∧
    ((s.stop sampleRate t1).stop sampleRate t2).pendingStops = 0 ∧
    ((s.stop sampleRate t1).stop sampleRate t2) =
      { s.stop sampleRate t1 with
          log := (s.stop sampleRate t1).log ++
            [stopEvent sampleRate t2 (s.stop sampleRate t1)] } := by
  simp [DeckState.stop]

/-- C6 amended: every `startPlayback(startTapeTimeS, …)` call sets
`tapeZeroFrame = round(anchorTimeS × sampleRate) −
round(startTapeTimeS × sampleRate)` where the anchor time is
`currentTime + 0.1 + beatsPerMeasure × 60 / tempo` — the anchor leads
"now" by the fixed 0.1 s metronome delay *plus one count-in bar*, which
depends on tempo and meter; `stop()` invalidates the mapping (sets the
sentinel `-1`). -/
theorem startPlayback_tapeZero_mapping (sampleRate : Nat)
    (song : SongContext) (now startTimeS stopTimeS t2 : ℚ)
    (punchInS punchOutS loopStartS : Option ℚ) (s : DeckState) :
    (s.startPlayback sampleRate song now startTimeS stopTimeS punchInS
        punchOutS loopStartS).tapeZeroFrame =
      jround ((now + 1 / 10 + song.beatsPerMeasure * 60 / song.tempo) *
          sampleRate) -
        jround (startTimeS * sampleRate) ∧
    ((s.startPlayback sampleRate song now startTimeS stopTimeS punchInS
        punchOutS loopStartS).stop sampleRate t2).tapeZeroFrame = -1 := by
  exact ⟨rfl, rfl⟩

/-- C7 amended: the end-of-range stop lives in the sample-routing path,
not in a per-track completion callback.  (a) During a recording pass
(armed track, live tape-zero mapping, punch-in set, stop frame set),
the batch that reaches the stop frame triggers `this.stop()`, which
broadcasts exactly one Stop `TransportEvent` and invalidates the
tape-zero mapping.  (b) If `stop()` was already called out-of-band, the
mapping-liveness check (`#tapeZeroFrame <= 0`) makes the sample path
ignore every later batch, so no duplicate Stop event is emitted and the
state is untouched. -/
theorem handleSamples_end_of_range_stop (sampleRate : Nat) (now : ℚ)
    (s : DeckState) (d : SampleData) :
    (0 ≤ s.armedTrack → 0 < s.tapeZeroFrame → 0 ≤ s.punchInTapeFrame →
      0 ≤ s.stopTapeFrame →
      s.stopTapeFrame ≤ d.startFrame - s.tapeZeroFrame + d.samples.length →
      (s.handleSamples sampleRate now d).state.log =
        s.log ++ [stopEvent sampleRate now s] ∧
      (s.handleSamples sampleRate now d).state.tapeZeroFrame = -1) ∧
    (s.tapeZeroFrame ≤ 0 →
      (s.handleSamples sampleRate now d).state = s ∧
      (s.handleSamples sampleRate now d).write = .ok none) := by
  constructor
  · intro h1 h2 h3 h4 h5
    simp only [DeckState.handleSamples]
    rw [if_neg (by omega)]
    rw [if_pos (show (0 : Int) ≤ s.stopTapeFrame ∧
        s.stopTapeFrame ≤ d.startFrame - s.tapeZeroFrame + (d.samples.length : Int)
      from ⟨h4, h5⟩)]
    split
    · exact ⟨rfl, rfl⟩
    · split
      · exact ⟨rfl, rfl⟩
      · split
        · exact ⟨rfl, rfl⟩
        · exact ⟨rfl, rfl⟩
  · intro h
    simp only [DeckState.handleSamples]
    rw [if_pos (Or.inr (Or.inl h))]
    exact ⟨rfl, rfl⟩

/-- Witness for C7: (a) a recording pass with stop frame 100 whose
batch covers tape frames 200 … 207 triggers the internal stop event;
(b) after an out-of-band stop invalidated the mapping, a late batch is
ignored. -/
theorem handleSamples_end_of_range_stop_witness :
    ((DeckState.handleSamples 48000 3
        { DeckState.init with
            tapeZeroFrame := 1000,
            punchInTapeFrame := 0,
            stopTapeFrame := 100,
            armedTrack := 0,
            numTracks := 1 }
        { startFrame := 1200, samples := List.replicate 8 0 }).state.log =
      [] ++ [stopEvent 48000 3
        { DeckState.init with
            tapeZeroFrame := 1000,
            punchInTapeFrame := 0,
            stopTapeFrame := 100,
            armedTrack := 0,
            numTracks := 1 }] ∧
      (DeckState.handleSamples 48000 3
        { DeckState.init with
            tapeZeroFrame := 1000,
            punchInTapeFrame := 0,
            stopTapeFrame := 100,
            armedTrack := 0,
            numTracks := 1 }
        { startFrame := 1200,
          samples := List.replicate 8 0 }).state.tapeZeroFrame = -1) ∧
    ((DeckState.handleSamples 48000 3
        { DeckState.init with armedTrack := 0, numTracks := 1 }
        { startFrame := 1200, samples := List.replicate 8 0 }).state =
      { DeckState.init with armedTrack := 0, numTracks := 1 } ∧
      (DeckState.handleSamples 48000 3
        { DeckState.init with armedTrack := 0, numTracks := 1 }
        { startFrame := 1200,
          samples := List.replicate 8 0 }).write = .ok none) :=
  ⟨(handleSamples_end_of_range_stop 48000 3
      { DeckState.init with
          tapeZeroFrame := 1000,
          punchInTapeFrame := 0,
          stopTapeFrame := 100,
          armedTrack := 0,
          numTracks := 1 }
      { startFrame := 1200, samples := List.replicate 8 0 }).1
    (by norm_num [DeckState.init]) (by norm_num [DeckState.init])
    (by norm_num [DeckState.init]) (by norm_num [DeckState.init])
    (by norm_num [DeckState.init]),
   (handleSamples_end_of_range_stop 48000 3
      { DeckState.init with armedTrack := 0, numTracks := 1 }
      { startFrame := 1200, samples := List.replicate 8 0 }).2
    (by norm_num [DeckState.init])⟩

/-- C2 amended: with anchor frame `A = ⌊t·sampleRate⌋`,
`framesPerBeat = (60/bpm)·sampleRate` and
`k = ⌊(currentFrame − A)/framesPerBeat⌋`: if the anchor is in the past
(`A < currentFrame`), both `_start` variants schedule the first tick at
`A + (k+1)·framesPerBeat`, the second variant with beat index
`(k+1) mod beatsPerMeasure` as the claim states, the first variant with
beat index `k mod beatsPerMeasure`; if the anchor is in the future or
now (`currentFrame ≤ A`), both variants schedule the first tick exactly
at `A` with beat index 0; with no anchor, both fire immediately
(`nextTickFrame = currentFrame`) with beat index 0. -/
theorem metronomeStart_first_tick (sampleRate : Nat) (bpm : ℚ)
    (m A k : Int) (framesPerBeat t : ℚ) (currentFrame : Int)
    (hm : 0 < m)
    (hA : A = ⌊t * (sampleRate : ℚ)⌋)
    (hf : framesPerBeat = 60 / bpm * sampleRate)
    (hk : k = ⌊((currentFrame - A : Int) : ℚ) / framesPerBeat⌋) :
    (A < currentFrame →
      metronomeStartV2 sampleRate bpm m currentFrame (some t) =
        { isPlaying := true, beatCount := (k + 1) % m,
          nextTickFrame := (A : ℚ) + ((k : ℚ) + 1) * framesPerBeat } ∧
      metronomeStartV1 sampleRate bpm m currentFrame (some t) =
        { isPlaying := true, beatCount := k % m,
          nextTickFrame := (A : ℚ) + ((k : ℚ) + 1) * framesPerBeat }) ∧
    (currentFrame ≤ A →
      metronomeStartV2 sampleRate bpm m currentFrame (some t) =
        { isPlaying := true, beatCount := 0, nextTickFrame := (A : ℚ) } ∧
      metronomeStartV1 sampleRate bpm m currentFrame (some t) =
        { isPlaying := true, beatCount := 0, nextTickFrame := (A : ℚ) }) ∧
    (metronomeStartV2 sampleRate bpm m currentFrame none =
        { isPlaying := true, beatCount := 0,
          nextTickFrame := (currentFrame : ℚ) } ∧
      metronomeStartV1 sampleRate bpm m currentFrame none =
        { isPlaying := true, beatCount := 0,
          nextTickFrame := (currentFrame : ℚ) }) := by
  have hm0 : m ≠ 0 := by omega
  subst hA hf hk
  refine ⟨fun h => ⟨?_, ?_⟩, fun h => ⟨?_, ?_⟩, rfl, rfl⟩
  · simp only [metronomeStartV2, if_neg hm0, if_pos h, ClickState.mk.injEq,
      true_and, and_true, eq_self_iff_true]
    push_cast
    ring
  · simp only [metronomeStartV1, if_neg hm0, if_pos h]
  · simp only [metronomeStartV2, if_neg hm0, if_neg (not_lt.mpr h)]
  · simp only [metronomeStartV1, if_neg hm0, if_neg (not_lt.mpr h)]

/-- Witness for C2 (the scenario of spec §8): sample rate 48000,
120 bpm, 4 beats per measure, anchor at time 0, current frame 30000
(1.25 beats past the anchor, `k = 1`): the second variant yields beat
index 2 and next tick frame 48000. -/
theorem metronomeStart_first_tick_witness :
    (0 : Int) < 4 ∧
    (metronomeStartV2 48000 120 4 30000 (some 0) =
      { isPlaying := true, beatCount := (1 + 1) % 4,
        nextTickFrame := ((0 : Int) : ℚ) + (((1 : Int) : ℚ) + 1) * 24000 } ∧
    metronomeStartV1 48000 120 4 30000 (some 0) =
      { isPlaying := true, beatCount := 1 % 4,
        nextTickFrame := ((0 : Int) : ℚ) + (((1 : Int) : ℚ) + 1) * 24000 }) :=
  ⟨by norm_num,
   (metronomeStart_first_tick 48000 120 4 0 1 24000 0 30000 (by norm_num)
      (by norm_num) (by norm_num) (by norm_num)).1 (by norm_num)⟩

/-- Processing a concatenation of capture-bridge event lists is the
same as processing the first list and then the second with the
compensation value the first list left behind. -/
theorem recordHandlerRun_append (sampleRate numSubscribers : Nat)
    (comp : Int) (evs1 evs2 : List RHEvent) :
    recordHandlerRun sampleRate numSubscribers comp (evs1 ++ evs2) =
      recordHandlerRun sampleRate numSubscribers comp evs1 ++
        recordHandlerRun sampleRate numSubscribers
          (compAfter sampleRate comp evs1) evs2 := by
  induction evs1 generalizing comp with
  | nil => simp [recordHandlerRun, compAfter]
  | cons e rest ih =>
    cases e with
    | samples b => simp [recordHandlerRun, compAfter, ih]
    | setComp x => simp [recordHandlerRun, compAfter, ih]

/-- C8: a batch received with compensation `c` is delivered to every
registered subscriber `0 … n−1` in registration order with `startFrame`
decreased by exactly `c` and `startTimeSeconds` decreased by exactly
`c / sampleRate` (all subscribers see the same adjusted batch);
`setLatencyCompensation` emits nothing and only replaces the
compensation used for subsequent batches; and processing any prefix of
the event stream is unaffected by later events (compensation changes
are not retroactive). -/
theorem recordHandler_compensation (sampleRate numSubscribers : Nat)
    (comp : Int) (b : RHBatch) (x : ℚ) (evs evs1 evs2 : List RHEvent) :
    recordHandlerRun sampleRate numSubscribers comp (.samples b :: evs) =
      ((List.range numSubscribers).map fun k =>
        (k, { samples := b.samples,
              startFrame := b.startFrame - comp,
              startTimeS := b.startTimeS - (comp : ℚ) / sampleRate })) ++
        recordHandlerRun sampleRate numSubscribers comp evs ∧
    recordHandlerRun sampleRate numSubscribers comp (.setComp x :: evs) =
      recordHandlerRun sampleRate numSubscribers
        (jround (x * sampleRate)) evs ∧
    recordHandlerRun sampleRate numSubscribers comp (evs1 ++ evs2) =
      recordHandlerRun sampleRate numSubscribers comp evs1 ++
        recordHandlerRun sampleRate numSubscribers
          (compAfter sampleRate comp evs1) evs2 :=
  ⟨rfl, rfl, recordHandlerRun_append sampleRate numSubscribers comp evs1 evs2⟩
